import Mathlib

/-!
Verification of the wapc-toolkit callback router (package callbacks) and
WebAssembly engine server (package engine).

The Go code is embedded shallowly:

* Go errors become the inductive `GoError`; a Go `error` return value is
  `Option GoError` (`none` = nil).
* Go `[]byte` values become `Payload := Option (List Nat)` (`none` = nil slice).
* Go maps become association lists with `assocLookup` / `assocInsert` /
  `assocErase` giving Go map semantics (lookup, assignment, delete).
* Handler / hook functions stored in the router become Lean functions; a
  possibly-nil Go function field becomes an `Option` of a function type.
* Side effects of a dispatch (which hooks and handlers ran, and with what
  arguments) are recorded in an explicit `DispatchOutcome` trace value.
* `time.Now()` values are threaded through as explicit `Nat` parameters.
* `context.Context` is represented by the value of `ctx.Err()`, an
  `Option GoError` (`some _` = canceled or expired).
-/

/-- Errors of the callbacks and engine packages, plus wrapping as done by
`fmt.Errorf("... - %w", err)` and arbitrary user errors. -/
inductive GoError where
  | errCanceled
  | errNotFound
  | errCallbackExists
  | errInvalidNamespace
  | errInvalidCapability
  | errInvalidOperation
  | errInvalidFunc
  | errInvalidModuleConfig
  | errModuleNotFound
  | errCallbackNil
  | custom (msg : String)
  | wrapped (msg : String) (inner : GoError)
deriving DecidableEq

/-- A Go `[]byte`: `none` models the nil slice. -/
abbrev Payload := Option (List Nat)

/-- The type of a registered callback function: `func(input []byte) ([]byte, error)`. -/
abbrev CallbackFunc := Payload → Payload × Option GoError

/-- Association-list lookup with Go map semantics (first binding wins; the
operations below keep keys unique). -/
def assocLookup {α : Type} : List (String × α) → String → Option α
  | [], _ => none
  | (k', v) :: rest, k => if k' = k then some v else assocLookup rest k

/-- Association-list insert with Go map assignment semantics: replace the
binding if the key is present, append otherwise. -/
def assocInsert {α : Type} : List (String × α) → String → α → List (String × α)
  | [], k, v => [(k, v)]
  | (k', v') :: rest, k, v =>
    if k' = k then (k, v) :: rest else (k', v') :: assocInsert rest k v

/-- Association-list delete with Go `delete` semantics: remove every binding
of the key, no error when absent. -/
def assocErase {α : Type} : List (String × α) → String → List (String × α)
  | [], _ => []
  | (k', v') :: rest, k =>
    if k' = k then assocErase rest k else (k', v') :: assocErase rest k

/-- The routing key built by `fmt.Sprintf("%s:%s:%s", namespace, capability, operation)`. -/
def routingKey (ns capability operation : String) : String :=
  ns ++ ":" ++ capability ++ ":" ++ operation

/-- A callback registered with the router (struct `Callback`). -/
structure Callback where
  Namespace : String
  Capability : String
  Operation : String
  Func : Option CallbackFunc

/-- The user-provided registration configuration (struct `CallbackConfig`). -/
structure CallbackConfig where
  Namespace : String
  Capability : String
  Operation : String
  Func : Option CallbackFunc

/-- `CallbackConfig.Validate`: distinct error per missing field, checked in
source order (namespace, capability, operation, func). -/
def CallbackConfig.Validate (c : CallbackConfig) : Option GoError :=
  if c.Namespace = "" then some GoError.errInvalidNamespace
  else if c.Capability = "" then some GoError.errInvalidCapability
  else if c.Operation = "" then some GoError.errInvalidOperation
  else if c.Func.isNone then some GoError.errInvalidFunc
  else none

/-- The request value passed to a pre-hook (struct `CallbackRequest`). -/
structure CallbackRequest where
  Namespace : String
  Capability : String
  Operation : String
  Input : Payload
  StartTime : Nat

/-- The result value passed to a post-hook (struct `CallbackResult`). -/
structure CallbackResult where
  Namespace : String
  Capability : String
  Operation : String
  Input : Payload
  Output : Payload
  Err : Option GoError
  StartTime : Nat
  EndTime : Nat
deriving DecidableEq

/-- Router construction configuration (struct `RouterConfig`). -/
structure RouterConfig where
  PreFunc : Option (CallbackRequest → Payload × Option GoError)
  PostFunc : Option (CallbackResult → Unit)

/-- The callback router (struct `Router`); the `sync.RWMutex` guards the map in
Go and has no sequential content here. -/
structure Router where
  callbacks : List (String × Callback)
  preFunc : Option (CallbackRequest → Payload × Option GoError)
  postFunc : Option (CallbackResult → Unit)

/-- `New` creates a router with an empty callback map; its error is always nil. -/
def New (cfg : RouterConfig) : Router × Option GoError :=
  ({ callbacks := [], preFunc := cfg.PreFunc, postFunc := cfg.PostFunc }, none)

/-- `Router.Close` clears the callback map. -/
def Router.Close (r : Router) : Router :=
  { r with callbacks := [] }

/-- `Router.Lookup` returns a field-by-field copy of the registered callback,
or a zero `Callback` and `ErrNotFound`. -/
def Router.Lookup (r : Router) (ns capability operation : String) :
    Callback × Option GoError :=
  match assocLookup r.callbacks (routingKey ns capability operation) with
  | some cb =>
    ({ Namespace := cb.Namespace, Capability := cb.Capability,
       Operation := cb.Operation, Func := cb.Func }, none)
  | none =>
    ({ Namespace := "", Capability := "", Operation := "", Func := none },
     some GoError.errNotFound)

/-- `Router.RegisterCallback`: validate, refuse an existing key with
`ErrCallbackExists` (checked through `Lookup`), else insert. -/
def Router.RegisterCallback (r : Router) (cfg : CallbackConfig) :
    Router × Option GoError :=
  match cfg.Validate with
  | some e => (r, some e)
  | none =>
    match (r.Lookup cfg.Namespace cfg.Capability cfg.Operation).2 with
    | none => (r, some GoError.errCallbackExists)
    | some _ =>
      ({ r with
          callbacks := assocInsert r.callbacks
            (routingKey cfg.Namespace cfg.Capability cfg.Operation)
            { Namespace := cfg.Namespace, Capability := cfg.Capability,
              Operation := cfg.Operation, Func := cfg.Func } }, none)

/-- `Router.UnregisterCallback`: validate (the full `CallbackConfig.Validate`,
including the func field), then delete the key; deleting an absent key is fine. -/
def Router.UnregisterCallback (r : Router) (cfg : CallbackConfig) :
    Router × Option GoError :=
  match cfg.Validate with
  | some e => (r, some e)
  | none =>
    ({ r with
        callbacks := assocErase r.callbacks
          (routingKey cfg.Namespace cfg.Capability cfg.Operation) }, none)

/-- Observable trace of one `Router.Callback` dispatch: the returned output and
error plus which of the pre-hook, handler, and post-hook ran, and the
`CallbackResult` handed to the post-hook goroutine when it was scheduled. -/
structure DispatchOutcome where
  Output : Payload
  Err : Option GoError
  PreCalled : Bool
  HandlerCalled : Bool
  PostCall : Option CallbackResult
deriving DecidableEq

/-- Calling a stored callback func. Calling a nil Go func would panic; that
case is modelled with a sentinel error and is unreachable from routers built by
`New` (see the router invariant theorem). -/
def callHandler (f : Option CallbackFunc) (input : Payload) :
    Payload × Option GoError :=
  match f with
  | some fn => fn input
  | none => (none, some (GoError.custom "runtime panic: nil callback func"))

/-- Lines 197-215 of the router source: run the registered handler, schedule
the post-hook (when configured) with the full `CallbackResult`, and return the
handler's output and error. -/
def dispatchHandler (r : Router) (cb : Callback) (ns capability operation : String)
    (input : Payload) (startTime endTime : Nat) (preCalled : Bool) : DispatchOutcome :=
  let hres := callHandler cb.Func input
  { Output := hres.1, Err := hres.2, PreCalled := preCalled, HandlerCalled := true,
    PostCall :=
      match r.postFunc with
      | some _ =>
        some { Namespace := ns, Capability := capability, Operation := operation,
               Input := input, Output := hres.1, Err := hres.2,
               StartTime := startTime, EndTime := endTime }
      | none => none }

/-- `Router.Callback` dispatch. `ctxErr` is the value of `ctx.Err()`;
`startTime` and `endTime` are the two `time.Now()` readings. -/
def Router.Callback (r : Router) (ctxErr : Option GoError)
    (ns capability operation : String) (input : Payload)
    (startTime endTime : Nat) : DispatchOutcome :=
  if ctxErr.isSome then
    { Output := none, Err := some GoError.errCanceled, PreCalled := false,
      HandlerCalled := false, PostCall := none }
  else
    match assocLookup r.callbacks (routingKey ns capability operation) with
    | some cb =>
      match r.preFunc with
      | some pre =>
        let pr := pre { Namespace := ns, Capability := capability,
                        Operation := operation, Input := input, StartTime := startTime }
        match pr.2 with
        | some e =>
          { Output := pr.1, Err := some e, PreCalled := true,
            HandlerCalled := false, PostCall := none }
        | none => dispatchHandler r cb ns capability operation input startTime endTime true
      | none => dispatchHandler r cb ns capability operation input startTime endTime false
    | none =>
      { Output := none, Err := some GoError.errNotFound, PreCalled := false,
        HandlerCalled := false, PostCall := none }

/-- The pre-hook stage of a dispatch does not abort: either no pre-hook is
configured, or it returns a nil error on this request. -/
def preStagePasses (r : Router) (req : CallbackRequest) : Prop :=
  ∀ pre, r.preFunc = some pre → (pre req).2 = none

/-- Default WebAssembly module pool size (engine package). -/
def DefaultPoolSize : Int := 100

/-- Default pool acquire timeout in seconds (engine package). -/
def DefaultPoolTimeout : Nat := 5

/-- Module load configuration (struct `ModuleConfig`). -/
structure ModuleConfig where
  Name : String
  Filepath : String
  PoolSize : Int

/-- A loaded module (struct `Module`; named `WasmModule` here because `Module`
is taken by Mathlib). The wapc module and pool handles of the external runtime
are modelled as opaque numeric identifiers; the cancellable context is part of
the external engine environment. -/
structure WasmModule where
  Name : String
  module : Nat
  pool : Nat
  poolSize : Nat

/-- External wapc-go pool and instance behaviour consumed by `Module.Run`:
`poolGet` is `pool.Get(timeout)`, `invoke` is `Instance.Invoke`, and
`poolReturn` is `pool.Return`. Instances are opaque identifiers. -/
structure EngineEnv where
  poolGet : Nat → Except GoError Nat
  invoke : Nat → String → Payload → Payload × Option GoError
  poolReturn : Nat → Option GoError

/-- Observable trace of one `Module.Run` call: returned output and error, the
timeout passed to `pool.Get`, and whether `Invoke`, `pool.Return`, and
`Instance.Close` ran. -/
structure RunOutcome where
  Output : Payload
  Err : Option GoError
  GetTimeout : Nat
  Invoked : Bool
  Returned : Bool
  Closed : Bool
deriving DecidableEq

/-- `Module.Run`: acquire with the fixed default timeout, invoke, and always
return the instance to the pool (closing it when the return fails). -/
def WasmModule.Run (_m : WasmModule) (env : EngineEnv) (function : String)
    (payload : Payload) : RunOutcome :=
  match env.poolGet DefaultPoolTimeout with
  | Except.error e =>
    { Output := none,
      Err := some (GoError.wrapped "could not fetch module from pool" e),
      GetTimeout := DefaultPoolTimeout, Invoked := false, Returned := false,
      Closed := false }
  | Except.ok i =>
    let res := env.invoke i function payload
    let retErr := env.poolReturn i
    { Output := res.1, Err := res.2, GetTimeout := DefaultPoolTimeout,
      Invoked := true, Returned := true, Closed := retErr.isSome }

/-- The engine server (struct `Server`): the registry of loaded modules plus
the host-callback function handed to the runtime. -/
structure Server where
  callback : Option (Option GoError → String → String → String → Payload →
    Payload × Option GoError)
  modules : List (String × WasmModule)

/-- External collaborators of `Server.LoadModule`: `os.ReadFile`, the wazero
`engine.New` instantiation, and `wapc.NewPool`, each able to fail. -/
structure LoadEnv where
  readFile : String → Except GoError (List Nat)
  engineNew : List Nat → Except GoError Nat
  newPool : Nat → Nat → Except GoError Nat

/-- `Server.LoadModule`: validate the config, resolve the pool size, read the
wasm file, instantiate the module, build the pool, then store the module under
its name. Every failure is wrapped with context and leaves the registry
untouched. -/
def Server.LoadModule (env : LoadEnv) (s : Server) (cfg : ModuleConfig) :
    Server × Option GoError :=
  if cfg.Name = "" ∨ cfg.Filepath = "" then
    (s, some (GoError.wrapped "key and file cannot be empty"
      GoError.errInvalidModuleConfig))
  else
    let psize : Nat := if cfg.PoolSize > 0 then cfg.PoolSize.toNat
      else DefaultPoolSize.toNat
    match env.readFile cfg.Filepath with
    | Except.error e =>
      (s, some (GoError.wrapped "unable to read wasm module file" e))
    | Except.ok guest =>
      match env.engineNew guest with
      | Except.error e =>
        (s, some (GoError.wrapped
          ("unable to load module with wasm file " ++ cfg.Filepath) e))
      | Except.ok mh =>
        match env.newPool mh psize with
        | Except.error e =>
          (s, some (GoError.wrapped
            ("unable to create module pool for wasm file " ++ cfg.Filepath) e))
        | Except.ok ph =>
          ({ s with
              modules := assocInsert s.modules cfg.Name
                { Name := cfg.Name, module := mh, pool := ph, poolSize := psize } },
           none)

/-- `Server.Module`: registry lookup, `ErrModuleNotFound` (with a zero-value
module) when the name is absent. -/
def Server.Module (s : Server) (key : String) : WasmModule × Option GoError :=
  match assocLookup s.modules key with
  | some m => (m, none)
  | none =>
    ({ Name := "", module := 0, pool := 0, poolSize := 0 },
     some GoError.errModuleNotFound)

/-- Invariant of the router state: every stored callback has non-empty key
fields, a non-nil func, and sits under the key built from its own fields. -/
def RouterInv (r : Router) : Prop :=
  ∀ k cb, assocLookup r.callbacks k = some cb →
    cb.Namespace ≠ "" ∧ cb.Capability ≠ "" ∧ cb.Operation ≠ "" ∧
    cb.Func.isSome = true ∧ k = routingKey cb.Namespace cb.Capability cb.Operation

/-- A handler that echoes its input, as in the repository's happy-path test. -/
def idHandler : CallbackFunc := fun i => (i, none)

/-- A handler that echoes its input and fails, as in the repository's
"Register callback that errors" test case. -/
def errHandler : CallbackFunc :=
  fun i => (i, some (GoError.custom "test error"))

/-- The test suite's standard callback registration. -/
def cbDefault : Callback :=
  { Namespace := "default", Capability := "counter", Operation := "increment",
    Func := some idHandler }

/-- The test suite's standard callback configuration. -/
def cfgDefault : CallbackConfig :=
  { Namespace := "default", Capability := "counter", Operation := "increment",
    Func := some idHandler }

/-- A router with no registrations and no hooks. -/
def emptyRouter : Router := { callbacks := [], preFunc := none, postFunc := none }

/-- A router holding the standard registration, no hooks. -/
def routerDefault : Router :=
  { callbacks := [("default:counter:increment", cbDefault)],
    preFunc := none, postFunc := none }

/-- A pre-hook that always fails. -/
def failPre : CallbackRequest → Payload × Option GoError :=
  fun _ => (none, some (GoError.custom "test error"))

/-- A router with the standard registration and a failing pre-hook. -/
def routerPreErr : Router :=
  { callbacks := [("default:counter:increment", cbDefault)],
    preFunc := some failPre, postFunc := none }

/-- A post-hook (its Go body only increments a counter). -/
def postSink : CallbackResult → Unit := fun _ => ()

/-- A router with an error-returning handler registered and a post-hook. -/
def routerPost : Router :=
  { callbacks := [("default:counter:increment",
      { Namespace := "default", Capability := "counter", Operation := "increment",
        Func := some errHandler })],
    preFunc := none, postFunc := some postSink }

/-- A loaded module value for exercising `WasmModule.Run`. -/
def sampleWasmModule : WasmModule := { Name := "m", module := 1, pool := 1, poolSize := 100 }

/-- An engine environment whose pool always hands out instance 0 and whose
invocations echo the payload. -/
def okEngineEnv : EngineEnv :=
  { poolGet := fun _ => Except.ok 0,
    invoke := fun _ _ p => (p, none),
    poolReturn := fun _ => none }

/-- An engine environment whose pool acquisition times out. -/
def failEngineEnv : EngineEnv :=
  { poolGet := fun _ => Except.error (GoError.custom "pool timeout"),
    invoke := fun _ _ p => (p, none),
    poolReturn := fun _ => none }

/-- A server with no loaded modules. -/
def emptyServer : Server := { callback := none, modules := [] }

/-- A load environment whose file read fails, as for a missing path. -/
def failLoadEnv : LoadEnv :=
  { readFile := fun _ => Except.error (GoError.custom "no such file or directory"),
    engineNew := fun _ => Except.ok 1,
    newPool := fun _ _ => Except.ok 1 }
theorem assocLookup_insert_self {α : Type} (m : List (String × α)) (k : String) (v : α) :
    assocLookup (assocInsert m k v) k = some v := by
  induction m with
  | nil => simp [assocInsert, assocLookup]
  | cons hd tl ih =>
    obtain ⟨k', v'⟩ := hd
    by_cases h : k' = k
    · simp [assocInsert, assocLookup, h]
    · simp [assocInsert, assocLookup, h, ih]

theorem assocLookup_insert_ne {α : Type} (m : List (String × α)) (k k' : String) (v : α)
    (h : k' ≠ k) : assocLookup (assocInsert m k v) k' = assocLookup m k' := by
  have hk : k ≠ k' := Ne.symm h
  induction m with
  | nil => simp [assocInsert, assocLookup, hk]
  | cons hd tl ih =>
    obtain ⟨k0, v0⟩ := hd
    by_cases h0 : k0 = k
    · subst h0
      simp [assocInsert, assocLookup, hk]
    · by_cases h1 : k0 = k'
      · simp [assocInsert, assocLookup, h0, h1, h]
      · simp [assocInsert, assocLookup, h0, h1, ih]

theorem assocLookup_erase_self {α : Type} (m : List (String × α)) (k : String) :
    assocLookup (assocErase m k) k = none := by
  induction m with
  | nil => simp [assocErase, assocLookup]
  | cons hd tl ih =>
    obtain ⟨k', v'⟩ := hd
    by_cases h : k' = k
    · simp [assocErase, h, ih]
    · simp [assocErase, assocLookup, h, ih]

theorem assocErase_of_lookup_none {α : Type} (m : List (String × α)) (k : String)
    (h : assocLookup m k = none) : assocErase m k = m := by
  induction m with
  | nil => simp [assocErase]
  | cons hd tl ih =>
    obtain ⟨k', v'⟩ := hd
    by_cases h0 : k' = k
    · simp [assocLookup, h0] at h
    · simp [assocLookup, h0] at h
      simp [assocErase, h0, ih h]

theorem assocLookup_insert_cases {α : Type} (m : List (String × α)) (k k' : String)
    (v v' : α) (h : assocLookup (assocInsert m k v) k' = some v') :
    (k' = k ∧ v' = v) ∨ assocLookup m k' = some v' := by
  by_cases he : k' = k
  · subst he
    rw [assocLookup_insert_self] at h
    injection h with h
    exact Or.inl ⟨rfl, h.symm⟩
  · rw [assocLookup_insert_ne m k k' v he] at h
    exact Or.inr h

theorem assocLookup_erase_sub {α : Type} (m : List (String × α)) (k k' : String) (v : α)
    (h : assocLookup (assocErase m k) k' = some v) : assocLookup m k' = some v := by
  induction m with
  | nil => simp [assocErase, assocLookup] at h
  | cons hd tl ih =>
    obtain ⟨k0, v0⟩ := hd
    by_cases h0 : k0 = k
    · simp [assocErase, h0] at h
      by_cases h1 : k0 = k'
      · subst h1
        subst h0
        rw [assocLookup_erase_self] at h
        exact absurd h (by simp)
      · simp [assocLookup, h1]
        exact ih h
    · simp [assocErase, h0] at h
      by_cases h1 : k0 = k'
      · simp [assocLookup, h1] at h ⊢
        exact h
      · simp [assocLookup, h1] at h ⊢
        exact ih h


theorem validate_none_fields (c : CallbackConfig) (h : c.Validate = none) :
    c.Namespace ≠ "" ∧ c.Capability ≠ "" ∧ c.Operation ≠ "" ∧
    c.Func.isSome = true := by
  by_cases h1 : c.Namespace = ""
  · simp [CallbackConfig.Validate, h1] at h
  · by_cases h2 : c.Capability = ""
    · simp [CallbackConfig.Validate, h1, h2] at h
    · by_cases h3 : c.Operation = ""
      · simp [CallbackConfig.Validate, h1, h2, h3] at h
      · rcases hF : c.Func with _ | f
        · simp [CallbackConfig.Validate, h1, h2, h3, hF] at h
        · exact ⟨h1, h2, h3, by simp [hF]⟩

/-- C5: Dispatch with an already-canceled or expired context fails with
`ErrCanceled` immediately: for every router state the outcome is the same, no
lookup result is consulted, and neither hook nor handler runs. -/
theorem callback_canceled_context (r : Router) (e : GoError)
    (ns capability operation : String) (input : Payload) (st et : Nat) :
    r.Callback (some e) ns capability operation input st et =
      { Output := none, Err := some GoError.errCanceled, PreCalled := false,
        HandlerCalled := false, PostCall := none } := by
  simp [Router.Callback]

/-- C6: Dispatch to a key with no live registration returns `ErrNotFound` and
invokes neither the pre-hook nor the post-hook (nor any handler). -/
theorem callback_unregistered_key (r : Router) (ns capability operation : String)
    (input : Payload) (st et : Nat)
    (habs : assocLookup r.callbacks (routingKey ns capability operation) = none) :
    r.Callback none ns capability operation input st et =
      { Output := none, Err := some GoError.errNotFound, PreCalled := false,
        HandlerCalled := false, PostCall := none } := by
  simp [Router.Callback, habs]

theorem callback_unregistered_key_witness :
    emptyRouter.Callback none "default" "counter" "increment" (some [1, 2]) 0 1 =
      { Output := none, Err := some GoError.errNotFound, PreCalled := false,
        HandlerCalled := false, PostCall := none } :=
  callback_unregistered_key emptyRouter "default" "counter" "increment"
    (some [1, 2]) 0 1 rfl

/-- C3: When a configured pre-hook returns an error for a registered key, the
dispatch returns the pre-hook's payload and error, and neither the registered
handler nor the post-hook is invoked. -/
theorem callback_preFunc_error_aborts (r : Router)
    (pre : CallbackRequest → Payload × Option GoError) (cb : Callback)
    (ns capability operation : String) (input rsp : Payload) (e : GoError)
    (st et : Nat)
    (hpre : r.preFunc = some pre)
    (hcb : assocLookup r.callbacks (routingKey ns capability operation) = some cb)
    (herr : pre { Namespace := ns, Capability := capability, Operation := operation,
                  Input := input, StartTime := st } = (rsp, some e)) :
    r.Callback none ns capability operation input st et =
      { Output := rsp, Err := some e, PreCalled := true, HandlerCalled := false,
        PostCall := none } := by
  simp [Router.Callback, hpre, hcb, herr]

theorem callback_preFunc_error_aborts_witness :
    routerPreErr.Callback none "default" "counter" "increment" (some [1, 2]) 0 1 =
      { Output := none, Err := some (GoError.custom "test error"), PreCalled := true,
        HandlerCalled := false, PostCall := none } :=
  callback_preFunc_error_aborts routerPreErr failPre cbDefault
    "default" "counter" "increment" (some [1, 2]) none
    (GoError.custom "test error") 0 1 rfl rfl rfl

/-- C4: When the dispatch reaches the registered handler and the handler
returns an error, a configured post-hook is still handed a `CallbackResult`
carrying the handler's output and error, and the dispatch returns that same
output and error verbatim to the caller. -/
theorem callback_handler_error_still_posts (r : Router) (pf : CallbackResult → Unit)
    (cb : Callback) (f : CallbackFunc) (ns capability operation : String)
    (input out : Payload) (e : GoError) (st et : Nat)
    (hcb : assocLookup r.callbacks (routingKey ns capability operation) = some cb)
    (hf : cb.Func = some f)
    (hout : f input = (out, some e))
    (hpost : r.postFunc = some pf)
    (hpre : preStagePasses r { Namespace := ns, Capability := capability,
                               Operation := operation, Input := input,
                               StartTime := st }) :
    r.Callback none ns capability operation input st et =
      { Output := out, Err := some e, PreCalled := r.preFunc.isSome,
        HandlerCalled := true,
        PostCall := some { Namespace := ns, Capability := capability,
                           Operation := operation, Input := input,
                           Output := out, Err := some e,
                           StartTime := st, EndTime := et } } := by
  rcases hpf : r.preFunc with _ | pre
  · simp [Router.Callback, hcb, hpf, dispatchHandler, callHandler, hf, hout, hpost]
  · have hp := hpre pre hpf
    simp [Router.Callback, hcb, hpf, hp, dispatchHandler, callHandler, hf, hout, hpost]

theorem callback_handler_error_still_posts_witness :
    routerPost.Callback none "default" "counter" "increment" (some [7]) 2 3 =
      { Output := some [7], Err := some (GoError.custom "test error"),
        PreCalled := false, HandlerCalled := true,
        PostCall := some { Namespace := "default", Capability := "counter",
                           Operation := "increment", Input := some [7],
                           Output := some [7],
                           Err := some (GoError.custom "test error"),
                           StartTime := 2, EndTime := 3 } } :=
  callback_handler_error_still_posts routerPost postSink
    { Namespace := "default", Capability := "counter", Operation := "increment",
      Func := some errHandler }
    errHandler "default" "counter" "increment" (some [7]) (some [7])
    (GoError.custom "test error") 2 3 rfl rfl rfl rfl
    (fun _ h => Option.noConfusion h)

/-- C1: Registering a configuration (itself passing validation) whose routing
key is already present fails with `ErrCallbackExists` and leaves the router
state unchanged, so a subsequent `Lookup` still returns the previously
registered callback and a subsequent dispatch behaves exactly as before. -/
theorem registerCallback_existing_key_fails (r : Router) (cfg : CallbackConfig)
    (cb : Callback)
    (hvalid : cfg.Validate = none)
    (hreg : assocLookup r.callbacks
      (routingKey cfg.Namespace cfg.Capability cfg.Operation) = some cb) :
    r.RegisterCallback cfg = (r, some GoError.errCallbackExists) ∧
    ((r.RegisterCallback cfg).1).Lookup cfg.Namespace cfg.Capability cfg.Operation =
      (cb, none) ∧
    (∀ ctxErr input st et,
      ((r.RegisterCallback cfg).1).Callback ctxErr cfg.Namespace cfg.Capability
          cfg.Operation input st et =
        r.Callback ctxErr cfg.Namespace cfg.Capability cfg.Operation input st et) := by
  have hfirst : r.RegisterCallback cfg = (r, some GoError.errCallbackExists) := by
    simp [Router.RegisterCallback, Router.Lookup, hvalid, hreg]
  refine ⟨hfirst, ?_, ?_⟩
  · rw [hfirst]
    simp [Router.Lookup, hreg]
  · intro ctxErr input st et
    rw [hfirst]

theorem registerCallback_existing_key_fails_witness :
    routerDefault.RegisterCallback cfgDefault =
      (routerDefault, some GoError.errCallbackExists) ∧
    ((routerDefault.RegisterCallback cfgDefault).1).Lookup
      "default" "counter" "increment" = (cbDefault, none) :=
  ⟨(registerCallback_existing_key_fails routerDefault cfgDefault cbDefault rfl rfl).1,
   (registerCallback_existing_key_fails routerDefault cfgDefault cbDefault rfl rfl).2.1⟩

/-- C2 counterexample: `UnregisterCallback` with the three key fields non-empty
but a nil handler func returns `ErrInvalidFunc`, not success — the source calls
the full `CallbackConfig.Validate`, which requires a non-nil func, and the
repository's own test expects exactly this error on unregister. -/
theorem unregister_nil_func_returns_error :
    (emptyRouter.UnregisterCallback
      { Namespace := "default", Capability := "counter", Operation := "increment",
        Func := none }).2 = some GoError.errInvalidFunc ∧
    (emptyRouter.UnregisterCallback
      { Namespace := "default", Capability := "counter", Operation := "increment",
        Func := none }).2 ≠ none := by
  constructor
  · rfl
  · intro h
    simp [Router.UnregisterCallback, CallbackConfig.Validate, emptyRouter] at h

/-- C2 amended: `UnregisterCallback` validates the full configuration —
including a non-nil handler func — and for a configuration passing validation
it always succeeds: the key is absent afterwards, a second unregister of the
same key also succeeds, and unregistering an absent key leaves the router
unchanged (idempotence). -/
theorem unregisterCallback_idempotent (r : Router) (cfg : CallbackConfig)
    (hvalid : cfg.Validate = none) :
    (r.UnregisterCallback cfg).2 = none ∧
    assocLookup ((r.UnregisterCallback cfg).1).callbacks
      (routingKey cfg.Namespace cfg.Capability cfg.Operation) = none ∧
    (((r.UnregisterCallback cfg).1).UnregisterCallback cfg).2 = none ∧
    (assocLookup r.callbacks (routingKey cfg.Namespace cfg.Capability cfg.Operation)
        = none →
      (r.UnregisterCallback cfg).1 = r) := by
  have h1 : r.UnregisterCallback cfg =
      ({ r with callbacks := assocErase r.callbacks
                  (routingKey cfg.Namespace cfg.Capability cfg.Operation) },
       none) := by
    simp [Router.UnregisterCallback, hvalid]
  refine ⟨by rw [h1], ?_, ?_, ?_⟩
  · rw [h1]
    exact assocLookup_erase_self _ _
  · rw [h1]
    simp [Router.UnregisterCallback, hvalid]
  · intro habs
    rw [h1]
    simp [assocErase_of_lookup_none _ _ habs]

theorem unregisterCallback_idempotent_witness :
    (emptyRouter.UnregisterCallback cfgDefault).2 = none ∧
    (emptyRouter.UnregisterCallback cfgDefault).1 = emptyRouter :=
  ⟨(unregisterCallback_idempotent emptyRouter cfgDefault rfl).1,
   (unregisterCallback_idempotent emptyRouter cfgDefault rfl).2.2.2 rfl⟩

/-- C7: For any valid registration of a fresh key, `Lookup` immediately after
`RegisterCallback` returns a value equal to the registered fields; the value is
a field-by-field copy, so replacing it with any mutated value leaves what
subsequent Lookups return untouched; and `Lookup` of an absent key fails with
`ErrNotFound`. -/
theorem lookup_after_register (r : Router) (cfg : CallbackConfig)
    (hvalid : cfg.Validate = none)
    (habs : assocLookup r.callbacks
      (routingKey cfg.Namespace cfg.Capability cfg.Operation) = none) :
    (r.RegisterCallback cfg).2 = none ∧
    ((r.RegisterCallback cfg).1).Lookup cfg.Namespace cfg.Capability cfg.Operation =
      ({ Namespace := cfg.Namespace, Capability := cfg.Capability,
         Operation := cfg.Operation, Func := cfg.Func }, none) ∧
    (∀ mutated : Callback,
      ((r.RegisterCallback cfg).1).Lookup cfg.Namespace cfg.Capability cfg.Operation =
        ({ Namespace := cfg.Namespace, Capability := cfg.Capability,
           Operation := cfg.Operation, Func := cfg.Func }, none)) ∧
    (∀ ns2 cap2 op2, assocLookup r.callbacks (routingKey ns2 cap2 op2) = none →
      r.Lookup ns2 cap2 op2 =
        ({ Namespace := "", Capability := "", Operation := "", Func := none },
         some GoError.errNotFound)) := by
  have hfirst : r.RegisterCallback cfg =
      ({ r with callbacks := assocInsert r.callbacks
                  (routingKey cfg.Namespace cfg.Capability cfg.Operation)
                  { Namespace := cfg.Namespace, Capability := cfg.Capability,
                    Operation := cfg.Operation, Func := cfg.Func } },
       none) := by
    simp [Router.RegisterCallback, Router.Lookup, hvalid, habs]
  have hlook : ((r.RegisterCallback cfg).1).Lookup cfg.Namespace cfg.Capability
      cfg.Operation =
      ({ Namespace := cfg.Namespace, Capability := cfg.Capability,
         Operation := cfg.Operation, Func := cfg.Func }, none) := by
    rw [hfirst]
    simp [Router.Lookup, assocLookup_insert_self]
  refine ⟨by rw [hfirst], hlook, fun _ => hlook, ?_⟩
  intro ns2 cap2 op2 h2
  simp [Router.Lookup, h2]

theorem lookup_after_register_witness :
    (emptyRouter.RegisterCallback cfgDefault).2 = none ∧
    ((emptyRouter.RegisterCallback cfgDefault).1).Lookup
      "default" "counter" "increment" = (cbDefault, none) :=
  ⟨(lookup_after_register emptyRouter cfgDefault rfl rfl).1,
   (lookup_after_register emptyRouter cfgDefault rfl rfl).2.1⟩

/-- C8: `Run` acquires an instance with the fixed default timeout; an acquire
failure returns the wrapped pool error and never invokes the function; on
success it invokes the function with the payload, always returns the instance
to the pool, and closes the instance exactly when that return fails. -/
theorem module_run_behaviour (m : WasmModule) (env : EngineEnv)
    (function : String) (payload : Payload) :
    (∀ e, env.poolGet DefaultPoolTimeout = Except.error e →
      m.Run env function payload =
        { Output := none,
          Err := some (GoError.wrapped "could not fetch module from pool" e),
          GetTimeout := DefaultPoolTimeout, Invoked := false, Returned := false,
          Closed := false }) ∧
    (∀ i, env.poolGet DefaultPoolTimeout = Except.ok i →
      m.Run env function payload =
        { Output := (env.invoke i function payload).1,
          Err := (env.invoke i function payload).2,
          GetTimeout := DefaultPoolTimeout, Invoked := true, Returned := true,
          Closed := (env.poolReturn i).isSome }) := by
  constructor
  · intro e he
    simp [WasmModule.Run, he]
  · intro i hi
    simp [WasmModule.Run, hi]

theorem module_run_behaviour_witness :
    sampleWasmModule.Run failEngineEnv "Hello" (some [1]) =
      { Output := none,
        Err := some (GoError.wrapped "could not fetch module from pool"
          (GoError.custom "pool timeout")),
        GetTimeout := DefaultPoolTimeout, Invoked := false, Returned := false,
        Closed := false } ∧
    sampleWasmModule.Run okEngineEnv "Hello" (some [1]) =
      { Output := some [1], Err := none, GetTimeout := DefaultPoolTimeout,
        Invoked := true, Returned := true, Closed := false } :=
  ⟨(module_run_behaviour sampleWasmModule failEngineEnv "Hello" (some [1])).1
      (GoError.custom "pool timeout") rfl,
   (module_run_behaviour sampleWasmModule okEngineEnv "Hello" (some [1])).2 0 rfl⟩

/-- C9: When the wasm file cannot be read, `LoadModule` (for a config whose
name and path are non-empty) fails with an error wrapping the read error and
context, stores nothing: the registry is unchanged, a lookup of that name (if
not previously loaded) fails with `ErrModuleNotFound`, and every other module
lookup is unaffected. -/
theorem loadModule_read_error_no_entry (env : LoadEnv) (s : Server)
    (cfg : ModuleConfig) (e : GoError)
    (hname : cfg.Name ≠ "") (hpath : cfg.Filepath ≠ "")
    (hread : env.readFile cfg.Filepath = Except.error e) :
    Server.LoadModule env s cfg =
      (s, some (GoError.wrapped "unable to read wasm module file" e)) ∧
    (assocLookup s.modules cfg.Name = none →
      ((Server.LoadModule env s cfg).1.Module cfg.Name).2 =
        some GoError.errModuleNotFound) ∧
    (∀ k, (Server.LoadModule env s cfg).1.Module k = s.Module k) := by
  have h1 : Server.LoadModule env s cfg =
      (s, some (GoError.wrapped "unable to read wasm module file" e)) := by
    simp [Server.LoadModule, hname, hpath, hread]
  refine ⟨h1, ?_, ?_⟩
  · intro habs
    rw [h1]
    simp [Server.Module, habs]
  · intro k
    rw [h1]

theorem loadModule_read_error_no_entry_witness :
    Server.LoadModule failLoadEnv emptyServer
      { Name := "m", Filepath := "/does/not/exist", PoolSize := 0 } =
      (emptyServer, some (GoError.wrapped "unable to read wasm module file"
        (GoError.custom "no such file or directory"))) ∧
    ((Server.LoadModule failLoadEnv emptyServer
        { Name := "m", Filepath := "/does/not/exist", PoolSize := 0 }).1.Module
      "m").2 = some GoError.errModuleNotFound :=
  ⟨(loadModule_read_error_no_entry failLoadEnv emptyServer
      { Name := "m", Filepath := "/does/not/exist", PoolSize := 0 }
      (GoError.custom "no such file or directory")
      (by decide) (by decide) rfl).1,
   (loadModule_read_error_no_entry failLoadEnv emptyServer
      { Name := "m", Filepath := "/does/not/exist", PoolSize := 0 }
      (GoError.custom "no such file or directory")
      (by decide) (by decide) rfl).2.1 rfl⟩

/-- C10: The router invariant — every stored callback has non-empty namespace,
capability, and operation, a non-nil func, and is keyed by its own fields
joined with colons — holds for the empty map produced by `New` and is
preserved by `RegisterCallback`, `UnregisterCallback`, and `Close` (`Lookup`
and `Callback` do not modify the map). -/
theorem router_invariant (cfg0 : RouterConfig) (r : Router) (cfg : CallbackConfig) :
    RouterInv (New cfg0).1 ∧
    (RouterInv r → RouterInv (r.RegisterCallback cfg).1) ∧
    (RouterInv r → RouterInv (r.UnregisterCallback cfg).1) ∧
    (RouterInv r → RouterInv r.Close) := by
  refine ⟨?_, ?_, ?_, ?_⟩
  · intro k cb h
    simp [New, assocLookup] at h
  · intro hinv
    rcases hv : cfg.Validate with _ | e
    · rcases hl : (r.Lookup cfg.Namespace cfg.Capability cfg.Operation).2 with _ | e2
      · intro k cb h
        simp [Router.RegisterCallback, hv, hl] at h
        exact hinv k cb h
      · intro k cb h
        simp [Router.RegisterCallback, hv, hl] at h
        rcases assocLookup_insert_cases _ _ _ _ _ h with ⟨hk, hcb⟩ | hold
        · subst hk
          subst hcb
          obtain ⟨n1, n2, n3, n4⟩ := validate_none_fields cfg hv
          exact ⟨n1, n2, n3, n4, rfl⟩
        · exact hinv k cb hold
    · intro k cb h
      simp [Router.RegisterCallback, hv] at h
      exact hinv k cb h
  · intro hinv
    rcases hv : cfg.Validate with _ | e
    · intro k cb h
      simp [Router.UnregisterCallback, hv] at h
      exact hinv k cb (assocLookup_erase_sub _ _ _ _ h)
    · intro k cb h
      simp [Router.UnregisterCallback, hv] at h
      exact hinv k cb h
  · intro _ k cb h
    simp [Router.Close, assocLookup] at h

theorem router_invariant_witness :
    RouterInv (New { PreFunc := none, PostFunc := none }).1 ∧
    RouterInv (emptyRouter.RegisterCallback cfgDefault).1 :=
  ⟨(router_invariant { PreFunc := none, PostFunc := none } emptyRouter cfgDefault).1,
   (router_invariant { PreFunc := none, PostFunc := none } emptyRouter cfgDefault).2.1
     (fun k cb h => by simp [emptyRouter, assocLookup] at h)⟩
